import Mathlib

/-!
Shallow embedding of the Ballot / Proposal identity core of go-spacemesh
(files common/types/ballot.go and the proposal file), with theorems about
initialization, identifier derivation, ordering and the compact storage
projection.  Bytes are modelled as natural numbers, byte strings as lists.
-/

namespace Spacemesh

/-- Lexicographic strict comparison of byte strings; models the Go standard
library bytes.Compare(x, y) < 0 (a proper prefix is smaller). -/
def bytesLess : List Nat → List Nat → Bool
  | [], [] => false
  | [], _ :: _ => true
  | _ :: _, [] => false
  | a :: as, b :: bs =>
    if a < b then true
    else if b < a then false
    else bytesLess as bs

/-- Modelled from the spec: Hash32 (defined in a repository file outside src)
is a fixed 32-byte hash value. -/
abbrev Hash32 : Type := { l : List Nat // l.length = 32 }

/-- Modelled from the spec: Hash20 (defined in a repository file outside src)
is a fixed 20-byte identifier value, the truncation of a Hash32. -/
abbrev Hash20 : Type := { l : List Nat // l.length = 20 }

/-- Modelled from the spec: truncation from 32 to 20 bytes keeps a fixed set
of leading bytes (the source hash utilities keep the first 20). -/
def Hash32.ToHash20 (h : Hash32) : Hash20 :=
  ⟨h.val.take 20, by simp [h.2]⟩

/-- Modelled from the spec and the source doc comment on AsHash32: the
widened Hash32 has the 20 identifier bytes first and is right-padded with
zero bytes. -/
def Hash20.ToHash32 (h : Hash20) : Hash32 :=
  ⟨h.val ++ List.replicate 12 0, by simp [h.2]⟩

/-- BallotID is a 20-byte identifier of a Ballot (Go: type BallotID Hash20). -/
abbrev BallotID : Type := Hash20

/-- ProposalID is a 20-byte identifier of a Proposal (Go: type ProposalID Hash20). -/
abbrev ProposalID : Type := Hash20

/-- EmptyBallotID is the canonical all-zero BallotID. -/
def EmptyBallotID : BallotID := ⟨List.replicate 20 0, by simp⟩

/-- EmptyProposalID is the canonical all-zero ProposalID. -/
def EmptyProposalID : ProposalID := ⟨List.replicate 20 0, by simp⟩

/-- AsHash32 widens a BallotID back to 32 bytes, right-padded with zeros. -/
def BallotID.AsHash32 (id : BallotID) : Hash32 := Hash20.ToHash32 id

/-- Bytes of a BallotID: the identifier as a 32-byte slice (the source casts
to Hash32 when returning bytes). -/
def BallotID.Bytes (id : BallotID) : List Nat := (BallotID.AsHash32 id).val

/-- Compare returns true when this BallotID is lexicographically smaller than
the other, over the widened byte slices, as in the source. -/
def BallotID.Compare (id other : BallotID) : Bool :=
  bytesLess (BallotID.Bytes id) (BallotID.Bytes other)

/-- AsHash32 widens a ProposalID back to 32 bytes, right-padded with zeros. -/
def ProposalID.AsHash32 (id : ProposalID) : Hash32 := Hash20.ToHash32 id

/-- Bytes of a ProposalID: the identifier as a 32-byte slice. -/
def ProposalID.Bytes (id : ProposalID) : List Nat := (ProposalID.AsHash32 id).val

/-- Compare returns true when this ProposalID is lexicographically smaller
than the other, over the widened byte slices, as in the source. -/
def ProposalID.Compare (id other : ProposalID) : Bool :=
  bytesLess (ProposalID.Bytes id) (ProposalID.Bytes other)

/-- Modelled from the spec: an activation reference (a 32-byte hash type
defined outside src). -/
abbrev ATXID : Type := Hash32

/-- Modelled from the spec: a block identifier (a 20-byte hash type defined
outside src). -/
abbrev BlockID : Type := Hash20

/-- Modelled from the spec: a transaction identifier (a 32-byte hash type
defined outside src). -/
abbrev TransactionID : Type := Hash32

/-- Modelled from the spec: the per-epoch random beacon value. -/
abbrev Beacon : Type := List Nat

/-- Modelled from the spec: a layer index (Go LayerID wraps a uint32 value). -/
structure LayerID where
  Value : Nat
deriving DecidableEq

/-- EpochData contains information that cannot be changed mid-epoch. -/
structure EpochData where
  ActiveSet : List ATXID
  Beacon : Beacon
deriving DecidableEq

/-- VotingEligibilityProof: counter value and VRF signature. -/
structure VotingEligibilityProof where
  J : Nat
  Sig : List Nat
deriving DecidableEq

/-- InnerBallot: the signable payload of a Ballot, as in the source. -/
structure InnerBallot where
  AtxID : ATXID
  EligibilityProof : VotingEligibilityProof
  BaseBallot : BallotID
  AgainstDiff : List BlockID
  ForDiff : List BlockID
  NeutralDiff : List BlockID
  RefBallot : BallotID
  EpochData : Option EpochData
  LayerIndex : LayerID
deriving DecidableEq

/-- Modelled from the spec: signing.PublicKey (outside src) wraps raw public
key bytes; Equals compares the raw bytes. -/
structure PublicKey where
  pub : List Nat
deriving DecidableEq

/-- Equals compares the raw bytes of two public keys. -/
def PublicKey.Equals (p o : PublicKey) : Bool := p.pub == o.pub

/-- Ballot: the serialized InnerBallot payload and signature plus the two
private cached fields.  The unset cached signer (Go nil pointer) is none. -/
structure Ballot where
  innerBallot : InnerBallot
  Signature : List Nat
  ballotID : BallotID
  smesherID : Option PublicKey
deriving DecidableEq

/-- ID returns the cached BallotID. -/
def Ballot.ID (b : Ballot) : BallotID := b.ballotID

/-- SmesherID returns the cached signer public key (none when unset). -/
def Ballot.SmesherID (b : Ballot) : Option PublicKey := b.smesherID

/-- Modelled from the spec: the external collaborators of this core, kept
abstract as parameters: the 32-byte hash (CalcHash32 over sha256, outside
src), ed25519 public-key recovery (ExtractPublicKey), and the deterministic
canonical codec for InnerBallot and InnerProposal.  The codec serializes
only the public fields, hence its arguments are exactly those fields. -/
structure Env where
  CalcHash32 : List Nat → Hash32
  ExtractPublicKey : List Nat → List Nat → Option (List Nat)
  EncodeInnerBallot : InnerBallot → List Nat
  EncodeInnerProposal : InnerBallot → List Nat → List TransactionID → List Nat

/-- Bytes returns the canonical serialization of the InnerBallot. -/
def Ballot.Bytes (env : Env) (b : Ballot) : List Nat :=
  env.EncodeInnerBallot b.innerBallot

/-- Errors of Ballot.Initialize: the already-initialized guard and the
failure of public-key extraction (signature recovery). -/
inductive BallotInitError where
  | alreadyInitialized
  | extractKeyFailed
deriving DecidableEq

/-- Ballot.Initialize, following the source line by line: guard on a
non-empty cached identifier, then compute the canonical bytes, assign the
cached identifier from the truncated hash, and only then attempt signature
recovery; on recovery failure the identifier assignment has already
happened.  The returned pair is the ballot state after the call and the
optional error. -/
def Ballot.Initialize (env : Env) (b : Ballot) :
    Ballot × Option BallotInitError :=
  if Ballot.ID b ≠ EmptyBallotID then
    (b, some BallotInitError.alreadyInitialized)
  else
    let data := Ballot.Bytes env b
    let b1 : Ballot := { b with ballotID := Hash32.ToHash20 (env.CalcHash32 data) }
    match env.ExtractPublicKey data b.Signature with
    | none => (b1, some BallotInitError.extractKeyFailed)
    | some pubkey => ({ b1 with smesherID := some (PublicKey.mk pubkey) }, none)

/-- InnerProposal: the embedded Ballot and the transaction references. -/
structure InnerProposal where
  ballot : Ballot
  TxIDs : List TransactionID
deriving DecidableEq

/-- Proposal: InnerProposal, signature, and the private cached identifier. -/
structure Proposal where
  innerProposal : InnerProposal
  Signature : List Nat
  proposalID : ProposalID
deriving DecidableEq

/-- ID returns the cached ProposalID. -/
def Proposal.ID (p : Proposal) : ProposalID := p.proposalID

/-- Bytes returns the canonical serialization of the InnerProposal: the
embedded Ballot public fields and the transaction list (the private cached
fields are excluded from serialization). -/
def Proposal.Bytes (env : Env) (p : Proposal) : List Nat :=
  env.EncodeInnerProposal p.innerProposal.ballot.innerBallot
    p.innerProposal.ballot.Signature p.innerProposal.TxIDs

/-- Errors of Proposal.Initialize: the already-initialized guard, a
propagated embedded-Ballot error, proposal key-extraction failure, and the
smesher mismatch between the proposal signer and the ballot signer. -/
inductive ProposalInitError where
  | alreadyInitialized
  | ballotError (e : BallotInitError)
  | extractKeyFailed
  | smesherMismatch (proposalSigner ballotSigner : PublicKey)
deriving DecidableEq

/-- The comparison p.Ballot.SmesherID().Equals(k): the cached signer is
always set when this is reached on the source success path, so the none
branch is unreachable there. -/
def smesherIDEquals (o : Option PublicKey) (k : PublicKey) : Bool :=
  match o with
  | some k0 => PublicKey.Equals k0 k
  | none => false

/-- Proposal.Initialize, following the source: guard on a non-empty cached
identifier, unconditionally initialize the embedded Ballot and propagate its
error, extract the proposal public key from the InnerProposal bytes and the
proposal signature, compare it with the ballot signer, and only as the final
step of the success path assign the cached ProposalID. -/
def Proposal.Initialize (env : Env) (p : Proposal) :
    Proposal × Option ProposalInitError :=
  if Proposal.ID p ≠ EmptyProposalID then
    (p, some ProposalInitError.alreadyInitialized)
  else
    match Ballot.Initialize env p.innerProposal.ballot with
    | (b1, some e) =>
        ({ p with innerProposal := { p.innerProposal with ballot := b1 } },
         some (ProposalInitError.ballotError e))
    | (b1, none) =>
        let p1 : Proposal :=
          { p with innerProposal := { p.innerProposal with ballot := b1 } }
        match env.ExtractPublicKey (Proposal.Bytes env p1) p.Signature with
        | none => (p1, some ProposalInitError.extractKeyFailed)
        | some pubkey =>
            let pPubKey := PublicKey.mk pubkey
            if smesherIDEquals (Ballot.SmesherID b1) pPubKey then
              ({ p1 with
                  proposalID := Hash32.ToHash20 (env.CalcHash32 (Proposal.Bytes env p1)) },
               none)
            else
              (p1, some (ProposalInitError.smesherMismatch pPubKey
                ((Ballot.SmesherID b1).getD (PublicKey.mk []))))

/-- DBBallot: the Ballot shape stored in the database. -/
structure DBBallot where
  innerBallot : InnerBallot
  ID : BallotID
  Signature : List Nat
  SmesherID : List Nat
deriving DecidableEq

/-- ToBallot creates a Ballot from data that is stored locally. -/
def DBBallot.ToBallot (b : DBBallot) : Ballot :=
  { ballotID := b.ID
    innerBallot := b.innerBallot
    Signature := b.Signature
    smesherID := some (PublicKey.mk b.SmesherID) }

/-- DBProposal: the Proposal shape stored in the database; the embedded
Ballot is stored separately and re-attached on reconstruction. -/
structure DBProposal where
  ID : ProposalID
  BallotID : BallotID
  LayerIndex : LayerID
  TxIDs : List TransactionID
  Signature : List Nat
deriving DecidableEq

/-- ToProposal creates a Proposal from data that is stored locally, with the
embedded Ballot supplied by the caller. -/
def DBProposal.ToProposal (b : DBProposal) (ballot : Ballot) : Proposal :=
  { innerProposal := { ballot := ballot, TxIDs := b.TxIDs }
    Signature := b.Signature
    proposalID := b.ID }

/-- Modelled from the spec: the storage projection of a Ballot extracts the
payload, the already-cached identifier and the signature, and persists the
raw signer bytes alongside (no toCompact function appears under src). -/
def Ballot.toCompact (b : Ballot) : DBBallot :=
  { innerBallot := b.innerBallot
    ID := b.ballotID
    Signature := b.Signature
    SmesherID := (b.smesherID.map PublicKey.pub).getD [] }

/-- Modelled from the spec: the storage projection of a Proposal extracts
the identifier, the embedded Ballot reference, the layer, the transaction
list and the signature (no toCompact function appears under src). -/
def Proposal.toCompact (p : Proposal) : DBProposal :=
  { ID := p.proposalID
    BallotID := p.innerProposal.ballot.ballotID
    LayerIndex := p.innerProposal.ballot.innerBallot.LayerIndex
    TxIDs := p.innerProposal.TxIDs
    Signature := p.Signature }

/-- The reflexive closure of the strict lexicographic order on ProposalID,
the order realized by SortProposalIDs. -/
def ProposalID.le (a b : ProposalID) : Prop :=
  ProposalID.Compare a b = true ∨ a = b

instance : DecidableRel ProposalID.le := fun a b =>
  decidable_of_iff (ProposalID.Compare a b = true ∨ a = b) Iff.rfl

/-- SortProposalIDs sorts a list of ProposalID in lexicographic order (the
source delegates to the standard library comparison sort; modelled here by
insertion sort over the same order). -/
def SortProposalIDs (ids : List ProposalID) : List ProposalID :=
  List.insertionSort ProposalID.le ids

/-! Concrete instances of the external collaborators and concrete objects,
used by the closed witness and counterexample theorems below. -/

/-- A concrete environment: a constant nonzero hash, key extraction that
fails exactly on an empty signature and otherwise returns the signature
bytes, and constant codecs. -/
def env0 : Env :=
  { CalcHash32 := fun _ => ⟨1 :: List.replicate 31 0, by simp⟩
    ExtractPublicKey := fun _ s => if s = [] then none else some s
    EncodeInnerBallot := fun _ => [0]
    EncodeInnerProposal := fun _ _ _ => [1] }

/-- A concrete empty InnerBallot. -/
def innerBallot0 : InnerBallot :=
  { AtxID := ⟨List.replicate 32 0, by simp⟩
    EligibilityProof := ⟨0, []⟩
    BaseBallot := EmptyBallotID
    AgainstDiff := []
    ForDiff := []
    NeutralDiff := []
    RefBallot := EmptyBallotID
    EpochData := none
    LayerIndex := ⟨0⟩ }

/-- The nonzero identifier env0 derives for every object. -/
def id0 : Hash20 := ⟨1 :: List.replicate 19 0, by simp⟩

/-- A populated, uninitialized ballot with a recoverable signature. -/
def ballot0 : Ballot :=
  { innerBallot := innerBallot0
    Signature := [1]
    ballotID := EmptyBallotID
    smesherID := none }

/-- The state of ballot0 after successful initialization under env0. -/
def ballot0AfterInit : Ballot :=
  { ballot0 with ballotID := id0, smesherID := some (PublicKey.mk [1]) }

/-- A populated, uninitialized ballot whose signature is unrecoverable. -/
def ballotBadSig : Ballot :=
  { innerBallot := innerBallot0
    Signature := []
    ballotID := EmptyBallotID
    smesherID := none }

/-- A ballot with the same payload as ballot0 but a different recoverable
signature. -/
def ballotOtherSig : Ballot :=
  { innerBallot := innerBallot0
    Signature := [3]
    ballotID := EmptyBallotID
    smesherID := none }

/-- An already initialized ballot. -/
def ballotInited : Ballot :=
  { innerBallot := innerBallot0
    Signature := [1]
    ballotID := id0
    smesherID := some (PublicKey.mk [1]) }

/-- An uninitialized proposal over ballot0 whose own signature recovers a
different key than the embedded ballot signature. -/
def proposal0 : Proposal :=
  { innerProposal := { ballot := ballot0, TxIDs := [] }
    Signature := [2]
    proposalID := EmptyProposalID }

/-- An already initialized proposal. -/
def proposalInited : Proposal :=
  { innerProposal := { ballot := ballotInited, TxIDs := [] }
    Signature := [2]
    proposalID := id0 }

/-- An uninitialized proposal whose embedded ballot is already initialized. -/
def proposalBallotInited : Proposal :=
  { innerProposal := { ballot := ballotInited, TxIDs := [] }
    Signature := [2]
    proposalID := EmptyProposalID }

/-- An uninitialized proposal whose embedded ballot carries an unrecoverable
signature. -/
def proposalBallotBadSig : Proposal :=
  { innerProposal := { ballot := ballotBadSig, TxIDs := [] }
    Signature := [2]
    proposalID := EmptyProposalID }

/-- A concrete identifier for ordering witnesses. -/
def pid1 : ProposalID := ⟨List.replicate 20 1, by simp⟩

/-- A second concrete identifier, lexicographically below pid1. -/
def pid2 : ProposalID := ⟨0 :: List.replicate 19 2, by simp⟩

/-! Helper lemmas about the lexicographic byte comparison. -/

theorem bytesLess_irrefl (l : List Nat) : bytesLess l l = false := by
  induction l with
  | nil => rfl
  | cons x xs ih => simp [bytesLess, ih]

theorem bytesLess_asymm :
    ∀ {a b : List Nat}, bytesLess a b = true → bytesLess b a = false := by
  intro a
  induction a with
  | nil =>
    intro b h
    cases b with
    | nil => exact absurd h (by simp [bytesLess])
    | cons y ys => rfl
  | cons x xs ih =>
    intro b h
    cases b with
    | nil => exact absurd h (by simp [bytesLess])
    | cons y ys =>
      rcases Nat.lt_trichotomy x y with hlt | heq | hgt
      · have h1 : ¬ y < x := by omega
        simp [bytesLess, h1, hlt]
      · subst heq
        have h1 : ¬ x < x := by omega
        simp only [bytesLess, if_neg h1] at h ⊢
        exact ih h
      · exact absurd h (by simp [bytesLess, hgt, Nat.lt_asymm hgt])

theorem bytesLess_eq_of_not_lt :
    ∀ {a b : List Nat}, bytesLess a b = false → bytesLess b a = false → a = b := by
  intro a
  induction a with
  | nil =>
    intro b h1 _
    cases b with
    | nil => rfl
    | cons y ys => exact absurd h1 (by simp [bytesLess])
  | cons x xs ih =>
    intro b h1 h2
    cases b with
    | nil => exact absurd h2 (by simp [bytesLess])
    | cons y ys =>
      rcases Nat.lt_trichotomy x y with hlt | heq | hgt
      · exact absurd h1 (by simp [bytesLess, hlt])
      · subst heq
        have h0 : ¬ x < x := by omega
        simp only [bytesLess, if_neg h0] at h1 h2
        rw [ih h1 h2]
      · exact absurd h2 (by simp [bytesLess, hgt])

theorem bytesLess_trans :
    ∀ {a b c : List Nat}, bytesLess a b = true → bytesLess b c = true →
      bytesLess a c = true := by
  intro a
  induction a with
  | nil =>
    intro b c h1 h2
    cases b with
    | nil => exact absurd h1 (by simp [bytesLess])
    | cons y ys =>
      cases c with
      | nil => exact absurd h2 (by simp [bytesLess])
      | cons z zs => simp [bytesLess]
  | cons x xs ih =>
    intro b c h1 h2
    cases b with
    | nil => exact absurd h1 (by simp [bytesLess])
    | cons y ys =>
      cases c with
      | nil => exact absurd h2 (by simp [bytesLess])
      | cons z zs =>
        rcases Nat.lt_trichotomy x y with hxy | hxy | hxy
        · rcases Nat.lt_trichotomy y z with hyz | hyz | hyz
          · simp [bytesLess, show x < z by omega]
          · subst hyz
            simp [bytesLess, hxy]
          · exact absurd h2 (by simp [bytesLess, hyz, Nat.lt_asymm hyz])
        · subst hxy
          have h0 : ¬ x < x := by omega
          simp only [bytesLess, if_neg h0] at h1
          rcases Nat.lt_trichotomy x z with hxz | hxz | hxz
          · simp [bytesLess, hxz]
          · subst hxz
            simp only [bytesLess, if_neg h0] at h2 ⊢
            exact ih h1 h2
          · exact absurd h2 (by simp [bytesLess, hxz, Nat.lt_asymm hxz])
        · exact absurd h1 (by simp [bytesLess, hxy, Nat.lt_asymm hxy])

/-- Widening a 20-byte identifier to 32 bytes is injective: the zero padding
can be cancelled on the right. -/
theorem hash20_toHash32_inj {a b : Hash20}
    (h : (Hash20.ToHash32 a).val = (Hash20.ToHash32 b).val) : a = b := by
  apply Subtype.ext
  simp only [Hash20.ToHash32] at h
  exact List.append_cancel_right h

/-! Helper lemmas characterizing every branch of the two Initialize
state machines. -/

theorem ballot_init_already (env : Env) (b : Ballot)
    (hg : Ballot.ID b ≠ EmptyBallotID) :
    Ballot.Initialize env b = (b, some BallotInitError.alreadyInitialized) := by
  simp [Ballot.Initialize, hg]

theorem ballot_init_extract_failed (env : Env) (b : Ballot)
    (hg : Ballot.ID b = EmptyBallotID)
    (hx : env.ExtractPublicKey (Ballot.Bytes env b) b.Signature = none) :
    Ballot.Initialize env b =
      ({ b with ballotID := Hash32.ToHash20 (env.CalcHash32 (Ballot.Bytes env b)) },
       some BallotInitError.extractKeyFailed) := by
  simp [Ballot.Initialize, hg, hx]

theorem ballot_init_success (env : Env) (b : Ballot) (k : List Nat)
    (hg : Ballot.ID b = EmptyBallotID)
    (hx : env.ExtractPublicKey (Ballot.Bytes env b) b.Signature = some k) :
    Ballot.Initialize env b =
      ({ b with ballotID := Hash32.ToHash20 (env.CalcHash32 (Ballot.Bytes env b)),
                smesherID := some (PublicKey.mk k) },
       none) := by
  simp [Ballot.Initialize, hg, hx]

theorem proposal_init_already (env : Env) (p : Proposal)
    (hg : Proposal.ID p ≠ EmptyProposalID) :
    Proposal.Initialize env p = (p, some ProposalInitError.alreadyInitialized) := by
  simp [Proposal.Initialize, hg]

theorem proposal_init_ballot_error (env : Env) (p : Proposal)
    (b1 : Ballot) (e : BallotInitError)
    (hg : Proposal.ID p = EmptyProposalID)
    (hb : Ballot.Initialize env p.innerProposal.ballot = (b1, some e)) :
    Proposal.Initialize env p =
      ({ p with innerProposal := { p.innerProposal with ballot := b1 } },
       some (ProposalInitError.ballotError e)) := by
  simp [Proposal.Initialize, hg, hb]

theorem proposal_init_mismatch (env : Env) (p : Proposal)
    (b1 : Ballot) (kP kB : List Nat)
    (hg : Proposal.ID p = EmptyProposalID)
    (hb : Ballot.Initialize env p.innerProposal.ballot = (b1, none))
    (hsm : b1.smesherID = some (PublicKey.mk kB))
    (hx : env.ExtractPublicKey
      (env.EncodeInnerProposal b1.innerBallot b1.Signature p.innerProposal.TxIDs)
      p.Signature = some kP)
    (hne : kP ≠ kB) :
    Proposal.Initialize env p =
      ({ p with innerProposal := { p.innerProposal with ballot := b1 } },
       some (ProposalInitError.smesherMismatch (PublicKey.mk kP) (PublicKey.mk kB))) := by
  have hne2 : ¬ (kB = kP) := fun h => hne h.symm
  simp [Proposal.Initialize, Proposal.Bytes, hg, hb, hx, hsm,
    smesherIDEquals, PublicKey.Equals, Ballot.SmesherID, hne2]

theorem proposal_init_extract_failed (env : Env) (p : Proposal) (b1 : Ballot)
    (hg : Proposal.ID p = EmptyProposalID)
    (hb : Ballot.Initialize env p.innerProposal.ballot = (b1, none))
    (hx : env.ExtractPublicKey
      (env.EncodeInnerProposal b1.innerBallot b1.Signature p.innerProposal.TxIDs)
      p.Signature = none) :
    Proposal.Initialize env p =
      ({ p with innerProposal := { p.innerProposal with ballot := b1 } },
       some ProposalInitError.extractKeyFailed) := by
  simp [Proposal.Initialize, Proposal.Bytes, hg, hb, hx]

theorem proposal_init_mismatch_unset (env : Env) (p : Proposal) (b1 : Ballot)
    (kP : List Nat)
    (hg : Proposal.ID p = EmptyProposalID)
    (hb : Ballot.Initialize env p.innerProposal.ballot = (b1, none))
    (hsm : b1.smesherID = none)
    (hx : env.ExtractPublicKey
      (env.EncodeInnerProposal b1.innerBallot b1.Signature p.innerProposal.TxIDs)
      p.Signature = some kP) :
    Proposal.Initialize env p =
      ({ p with innerProposal := { p.innerProposal with ballot := b1 } },
       some (ProposalInitError.smesherMismatch (PublicKey.mk kP) (PublicKey.mk []))) := by
  simp [Proposal.Initialize, Proposal.Bytes, hg, hb, hx, hsm,
    smesherIDEquals, Ballot.SmesherID]

theorem proposal_init_success (env : Env) (p : Proposal)
    (b1 : Ballot) (k : List Nat)
    (hg : Proposal.ID p = EmptyProposalID)
    (hb : Ballot.Initialize env p.innerProposal.ballot = (b1, none))
    (hsm : b1.smesherID = some (PublicKey.mk k))
    (hx : env.ExtractPublicKey
      (env.EncodeInnerProposal b1.innerBallot b1.Signature p.innerProposal.TxIDs)
      p.Signature = some k) :
    Proposal.Initialize env p =
      ({ p with
          innerProposal := { p.innerProposal with ballot := b1 }
          proposalID := Hash32.ToHash20 (env.CalcHash32
            (env.EncodeInnerProposal b1.innerBallot b1.Signature p.innerProposal.TxIDs)) },
       none) := by
  simp [Proposal.Initialize, Proposal.Bytes, hg, hb, hx, hsm,
    smesherIDEquals, PublicKey.Equals, Ballot.SmesherID]

/-! The claim theorems. -/

/-- Claim C1: for every uninitialized Proposal whose embedded Ballot
initializes successfully and whose own raw signature recovers (over the
InnerProposal bytes) a public key different from the embedded Ballot
recovered signer, Proposal.Initialize fails with the signer mismatch
error carrying both keys. -/
theorem C1_proposal_signer_mismatch (env : Env) (p : Proposal)
    (b1 : Ballot) (kP kB : List Nat)
    (hg : Proposal.ID p = EmptyProposalID)
    (hb : Ballot.Initialize env p.innerProposal.ballot = (b1, none))
    (hsm : b1.smesherID = some (PublicKey.mk kB))
    (hx : env.ExtractPublicKey
      (env.EncodeInnerProposal b1.innerBallot b1.Signature p.innerProposal.TxIDs)
      p.Signature = some kP)
    (hne : kP ≠ kB) :
    (Proposal.Initialize env p).2 =
      some (ProposalInitError.smesherMismatch (PublicKey.mk kP) (PublicKey.mk kB)) := by
  rw [proposal_init_mismatch env p b1 kP kB hg hb hsm hx hne]

/-- Witness for C1 at a concrete proposal whose embedded ballot key is the
byte string 1 and whose own signature recovers the byte string 2. -/
theorem C1_witness :
    (Proposal.Initialize env0 proposal0).2 =
      some (ProposalInitError.smesherMismatch (PublicKey.mk [2]) (PublicKey.mk [1])) :=
  C1_proposal_signer_mismatch env0 proposal0 ballot0AfterInit [2] [1]
    (by decide) (by decide) (by decide) (by decide) (by decide)

/-- Claim C2 counterexample: a concrete uninitialized ballot on which
Initialize fails with the signature-recovery error, yet the cached
identifier is no longer the empty BallotID, refuting the claim that the
ballot remains in the Unset state. -/
theorem C2_counterexample :
    ballotBadSig.ballotID = EmptyBallotID ∧
    (Ballot.Initialize env0 ballotBadSig).2 = some BallotInitError.extractKeyFailed ∧
    Ballot.ID (Ballot.Initialize env0 ballotBadSig).1 ≠ EmptyBallotID := by
  decide

/-- Claim C2 (amended): when Initialize on an uninitialized Ballot fails
with the signature-recovery error, the cached signer remains unset, but the
cached identifier has already been assigned the derived hash before the
recovery attempt, so the ballot does not remain Unset. -/
theorem C2_recovery_failure_state (env : Env) (b : Ballot)
    (hg : Ballot.ID b = EmptyBallotID)
    (hx : env.ExtractPublicKey (Ballot.Bytes env b) b.Signature = none) :
    Ballot.Initialize env b =
      ({ b with ballotID := Hash32.ToHash20 (env.CalcHash32 (Ballot.Bytes env b)) },
       some BallotInitError.extractKeyFailed) :=
  ballot_init_extract_failed env b hg hx

/-- Witness for C2 (amended) at a concrete ballot with an empty signature. -/
theorem C2_witness :
    Ballot.Initialize env0 ballotBadSig =
      ({ ballotBadSig with ballotID := id0 }, some BallotInitError.extractKeyFailed) :=
  (C2_recovery_failure_state env0 ballotBadSig (by decide) (by decide)).trans (by decide)

/-- Claim C3 counterexample: a concrete uninitialized Proposal whose
embedded Ballot is already initialized; Proposal.Initialize does fail at
the embedded-Ballot step, propagating the already-initialized error,
refuting the claim that the embedded Ballot is initialized only when not
already done. -/
theorem C3_counterexample :
    proposalBallotInited.proposalID = EmptyProposalID ∧
    Ballot.ID proposalBallotInited.innerProposal.ballot ≠ EmptyBallotID ∧
    (Proposal.Initialize env0 proposalBallotInited).2 =
      some (ProposalInitError.ballotError BallotInitError.alreadyInitialized) := by
  decide

/-- Claim C3 (amended): Proposal.Initialize unconditionally re-runs the
embedded Ballot initialization and propagates its error; for an
uninitialized Proposal whose embedded Ballot is already initialized it
fails at the embedded-Ballot step with the already-initialized error,
leaving the proposal unchanged. -/
theorem C3_ballot_step (env : Env) (p : Proposal)
    (hg : Proposal.ID p = EmptyProposalID)
    (hb : Ballot.ID p.innerProposal.ballot ≠ EmptyBallotID) :
    Proposal.Initialize env p =
      (p, some (ProposalInitError.ballotError BallotInitError.alreadyInitialized)) :=
  proposal_init_ballot_error env p p.innerProposal.ballot
    BallotInitError.alreadyInitialized hg (ballot_init_already env _ hb)

/-- Witness for C3 (amended) at a concrete proposal over an initialized
ballot. -/
theorem C3_witness :
    Proposal.Initialize env0 proposalBallotInited =
      (proposalBallotInited,
       some (ProposalInitError.ballotError BallotInitError.alreadyInitialized)) :=
  C3_ballot_step env0 proposalBallotInited (by decide) (by decide)

/-- Claim C4: on an already initialized Ballot or Proposal (cached
identifier nonempty), calling Initialize again fails with the
already-initialized error and returns the object unchanged, its cached
identifier and cached signer exactly as the first call set them. -/
theorem C4_already_initialized (env : Env) :
    (∀ b : Ballot, Ballot.ID b ≠ EmptyBallotID →
      Ballot.Initialize env b = (b, some BallotInitError.alreadyInitialized)) ∧
    (∀ p : Proposal, Proposal.ID p ≠ EmptyProposalID →
      Proposal.Initialize env p = (p, some ProposalInitError.alreadyInitialized)) :=
  ⟨fun b hb => ballot_init_already env b hb,
   fun p hp => proposal_init_already env p hp⟩

/-- Witness for C4 at a concrete initialized ballot and proposal. -/
theorem C4_witness :
    Ballot.Initialize env0 ballotInited =
      (ballotInited, some BallotInitError.alreadyInitialized) ∧
    Proposal.Initialize env0 proposalInited =
      (proposalInited, some ProposalInitError.alreadyInitialized) :=
  ⟨(C4_already_initialized env0).1 ballotInited (by decide),
   (C4_already_initialized env0).2 proposalInited (by decide)⟩

/-- Claim C5: on an uninitialized Ballot whose signature recovery succeeds,
Initialize caches exactly two fields: the identifier becomes the 20-byte
truncation of the 32-byte hash of the canonical InnerBallot encoding and
the signer becomes the public key recovered from those same bytes and the
stored signature; every other field is unchanged. -/
theorem C5_ballot_initialize_success (env : Env) (b : Ballot) (k : List Nat)
    (hg : Ballot.ID b = EmptyBallotID)
    (hx : env.ExtractPublicKey (Ballot.Bytes env b) b.Signature = some k) :
    Ballot.Initialize env b =
      ({ b with
          ballotID := Hash32.ToHash20 (env.CalcHash32 (Ballot.Bytes env b)),
          smesherID := some (PublicKey.mk k) },
       none) :=
  ballot_init_success env b k hg hx

/-- Witness for C5 at a concrete ballot. -/
theorem C5_witness :
    Ballot.Initialize env0 ballot0 = (ballot0AfterInit, none) :=
  (C5_ballot_initialize_success env0 ballot0 [1] (by decide) (by decide)).trans (by decide)

/-- Claim C6: the derived identifier is a deterministic function of the
canonical InnerBallot bytes alone: two ballots with byte-identical
encodings receive byte-identical identifiers whenever Initialize succeeds
on both. -/
theorem C6_id_deterministic (env : Env) (b1 b2 : Ballot)
    (henc : env.EncodeInnerBallot b1.innerBallot = env.EncodeInnerBallot b2.innerBallot)
    (h1 : (Ballot.Initialize env b1).2 = none)
    (h2 : (Ballot.Initialize env b2).2 = none) :
    Ballot.ID (Ballot.Initialize env b1).1 = Ballot.ID (Ballot.Initialize env b2).1 := by
  by_cases hg1 : Ballot.ID b1 = EmptyBallotID
  · by_cases hg2 : Ballot.ID b2 = EmptyBallotID
    · cases hx1 : env.ExtractPublicKey (Ballot.Bytes env b1) b1.Signature with
      | none =>
        rw [ballot_init_extract_failed env b1 hg1 hx1] at h1
        simp at h1
      | some k1 =>
        cases hx2 : env.ExtractPublicKey (Ballot.Bytes env b2) b2.Signature with
        | none =>
          rw [ballot_init_extract_failed env b2 hg2 hx2] at h2
          simp at h2
        | some k2 =>
          rw [ballot_init_success env b1 k1 hg1 hx1, ballot_init_success env b2 k2 hg2 hx2]
          simp [Ballot.ID, Ballot.Bytes, henc]
    · rw [ballot_init_already env b2 hg2] at h2
      simp at h2
  · rw [ballot_init_already env b1 hg1] at h1
    simp at h1

/-- Witness for C6 at two concrete ballots with equal payload encodings but
different signatures. -/
theorem C6_witness :
    Ballot.ID (Ballot.Initialize env0 ballot0).1 =
      Ballot.ID (Ballot.Initialize env0 ballotOtherSig).1 :=
  C6_id_deterministic env0 ballot0 ballotOtherSig (by decide) (by decide) (by decide)

/-- Claim C7: identifier comparison is a strict total order for both
BallotID and ProposalID: irreflexive, asymmetric, with neither side
smaller exactly when the identifiers are equal, and transitive; and
sorting any permutation of a list of ProposalID yields the same sorted
sequence. -/
theorem C7_compare_strict_total_order :
    (∀ a : BallotID, BallotID.Compare a a = false) ∧
    (∀ a b : BallotID, BallotID.Compare a b = true → BallotID.Compare b a = false) ∧
    (∀ a b : BallotID,
      (BallotID.Compare a b = false ∧ BallotID.Compare b a = false) ↔ a = b) ∧
    (∀ a b c : BallotID, BallotID.Compare a b = true → BallotID.Compare b c = true →
      BallotID.Compare a c = true) ∧
    (∀ a : ProposalID, ProposalID.Compare a a = false) ∧
    (∀ a b : ProposalID, ProposalID.Compare a b = true → ProposalID.Compare b a = false) ∧
    (∀ a b : ProposalID,
      (ProposalID.Compare a b = false ∧ ProposalID.Compare b a = false) ↔ a = b) ∧
    (∀ a b c : ProposalID, ProposalID.Compare a b = true → ProposalID.Compare b c = true →
      ProposalID.Compare a c = true) ∧
    (∀ l1 l2 : List ProposalID, List.Perm l1 l2 →
      SortProposalIDs l1 = SortProposalIDs l2) := by
  have toFalse : ∀ {x : Bool}, ¬ x = true → x = false := by
    intro x h
    cases x
    · rfl
    · exact absurd rfl h
  refine ⟨fun a => bytesLess_irrefl _,
    fun a b h => bytesLess_asymm h,
    fun a b => ⟨fun h => hash20_toHash32_inj (bytesLess_eq_of_not_lt h.1 h.2), ?_⟩,
    fun a b c h1 h2 => bytesLess_trans h1 h2,
    fun a => bytesLess_irrefl _,
    fun a b h => bytesLess_asymm h,
    fun a b => ⟨fun h => hash20_toHash32_inj (bytesLess_eq_of_not_lt h.1 h.2), ?_⟩,
    fun a b c h1 h2 => bytesLess_trans h1 h2,
    ?_⟩
  · rintro rfl
    exact ⟨bytesLess_irrefl _, bytesLess_irrefl _⟩
  · rintro rfl
    exact ⟨bytesLess_irrefl _, bytesLess_irrefl _⟩
  · intro l1 l2 hperm
    haveI instTot : IsTotal ProposalID ProposalID.le := ⟨fun a b => by
      by_cases hab : ProposalID.Compare a b = true
      · exact Or.inl (Or.inl hab)
      by_cases hba : ProposalID.Compare b a = true
      · exact Or.inr (Or.inl hba)
      exact Or.inl (Or.inr (hash20_toHash32_inj
        (bytesLess_eq_of_not_lt (toFalse hab) (toFalse hba))))⟩
    haveI instTrans : IsTrans ProposalID ProposalID.le := ⟨fun a b c h1 h2 => by
      rcases h1 with h1 | rfl
      · rcases h2 with h2 | rfl
        · exact Or.inl (bytesLess_trans h1 h2)
        · exact Or.inl h1
      · exact h2⟩
    haveI instAnti : IsAntisymm ProposalID ProposalID.le := ⟨fun a b h1 h2 => by
      rcases h1 with h1 | rfl
      · rcases h2 with h2 | rfl
        · exact absurd (h1.symm.trans (bytesLess_asymm h2)) (by decide)
        · rfl
      · rfl⟩
    exact List.eq_of_perm_of_sorted
      (((List.perm_insertionSort ProposalID.le l1).trans hperm).trans
        (List.perm_insertionSort ProposalID.le l2).symm)
      (List.sorted_insertionSort ProposalID.le l1)
      (List.sorted_insertionSort ProposalID.le l2)

/-- Witness for C7: sorting two permutations of a concrete two-element list
of identifiers yields the same sequence. -/
theorem C7_witness :
    SortProposalIDs [pid1, pid2] = SortProposalIDs [pid2, pid1] :=
  C7_compare_strict_total_order.2.2.2.2.2.2.2.2 [pid1, pid2] [pid2, pid1]
    (List.Perm.swap pid2 pid1 [])

/-- Claim C8: the compact storage projection round-trips: for an
initialized Ballot, reconstruction from its projection preserves the
identifier, the signature and the whole InnerBallot payload; for an
initialized Proposal, reconstruction with the embedded Ballot re-supplied
preserves the identifier, the signature and the payload fields. -/
theorem C8_compact_roundtrip (b : Ballot) (p : Proposal)
    (hb : Ballot.ID b ≠ EmptyBallotID) (hp : Proposal.ID p ≠ EmptyProposalID) :
    (DBBallot.ToBallot (Ballot.toCompact b)).ballotID = b.ballotID ∧
    (DBBallot.ToBallot (Ballot.toCompact b)).Signature = b.Signature ∧
    (DBBallot.ToBallot (Ballot.toCompact b)).innerBallot = b.innerBallot ∧
    (DBProposal.ToProposal (Proposal.toCompact p) p.innerProposal.ballot).proposalID
      = p.proposalID ∧
    (DBProposal.ToProposal (Proposal.toCompact p) p.innerProposal.ballot).Signature
      = p.Signature ∧
    (DBProposal.ToProposal (Proposal.toCompact p) p.innerProposal.ballot).innerProposal
      = p.innerProposal :=
  ⟨rfl, rfl, rfl, rfl, rfl, rfl⟩

/-- Witness for C8 at a concrete initialized ballot and proposal. -/
theorem C8_witness :
    (DBBallot.ToBallot (Ballot.toCompact ballotInited)).ballotID
      = ballotInited.ballotID ∧
    (DBBallot.ToBallot (Ballot.toCompact ballotInited)).Signature
      = ballotInited.Signature ∧
    (DBBallot.ToBallot (Ballot.toCompact ballotInited)).innerBallot
      = ballotInited.innerBallot ∧
    (DBProposal.ToProposal (Proposal.toCompact proposalInited)
        proposalInited.innerProposal.ballot).proposalID
      = proposalInited.proposalID ∧
    (DBProposal.ToProposal (Proposal.toCompact proposalInited)
        proposalInited.innerProposal.ballot).Signature
      = proposalInited.Signature ∧
    (DBProposal.ToProposal (Proposal.toCompact proposalInited)
        proposalInited.innerProposal.ballot).innerProposal
      = proposalInited.innerProposal :=
  C8_compact_roundtrip ballotInited proposalInited (by decide) (by decide)

/-- Claim C9: widening a 20-byte identifier back to 32 bytes keeps the 20
identifier bytes in the leading positions and fills the trailing 12 bytes
with zeros, for both BallotID and ProposalID. -/
theorem C9_asHash32_pad (id : Hash20) :
    (BallotID.AsHash32 id).val.take 20 = id.val ∧
    (BallotID.AsHash32 id).val.drop 20 = List.replicate 12 0 ∧
    (ProposalID.AsHash32 id).val.take 20 = id.val ∧
    (ProposalID.AsHash32 id).val.drop 20 = List.replicate 12 0 := by
  refine ⟨?_, ?_, ?_, ?_⟩ <;>
    simp [BallotID.AsHash32, ProposalID.AsHash32, Hash20.ToHash32,
      List.take_left' id.2, List.drop_left' id.2]

/-- Witness for C9 at a concrete identifier. -/
theorem C9_witness :
    (ProposalID.AsHash32 pid1).val.take 20 = pid1.val :=
  (C9_asHash32_pad pid1).2.2.1

/-- Claim C10 counterexample: a concrete already-initialized Proposal on
which Initialize returns an error (the already-initialized guard) while
the cached identifier is not the empty ProposalID, refuting the claim that
every error leaves the identifier equal to the empty identifier. -/
theorem C10_counterexample :
    (Proposal.Initialize env0 proposalInited).2 =
      some ProposalInitError.alreadyInitialized ∧
    Proposal.ID (Proposal.Initialize env0 proposalInited).1 ≠ EmptyProposalID := by
  decide

/-- Claim C10 (amended): whenever Proposal.Initialize returns an error the
cached identifier is unchanged, and on every error other than the
already-initialized guard it is the empty all-zero ProposalID: the
proposalID field is assigned only as the final step of the success path. -/
theorem C10_error_id_unchanged (env : Env) (p : Proposal) (e : ProposalInitError)
    (h : (Proposal.Initialize env p).2 = some e) :
    (Proposal.Initialize env p).1.proposalID = p.proposalID ∧
    (e ≠ ProposalInitError.alreadyInitialized → p.proposalID = EmptyProposalID) := by
  by_cases hg : Proposal.ID p = EmptyProposalID
  · refine ⟨?_, fun _ => hg⟩
    rcases hbi : Ballot.Initialize env p.innerProposal.ballot with ⟨b1, oe⟩
    cases oe with
    | some eb =>
      rw [proposal_init_ballot_error env p b1 eb hg hbi]
    | none =>
      rcases hx : env.ExtractPublicKey
          (env.EncodeInnerProposal b1.innerBallot b1.Signature p.innerProposal.TxIDs)
          p.Signature with _ | k
      · rw [proposal_init_extract_failed env p b1 hg hbi hx]
      · rcases hsm : b1.smesherID with _ | k0
        · rw [proposal_init_mismatch_unset env p b1 k hg hbi hsm hx]
        · by_cases hk : k = k0.pub
          · exfalso
            have hsm2 : b1.smesherID = some (PublicKey.mk k) := by
              rw [hsm]
              subst hk
              rfl
            rw [proposal_init_success env p b1 k hg hbi hsm2 hx] at h
            simp at h
          · have hsm2 : b1.smesherID = some (PublicKey.mk k0.pub) := by
              rw [hsm]
            rw [proposal_init_mismatch env p b1 k k0.pub hg hbi hsm2 hx hk]
  · rw [proposal_init_already env p hg] at h
    simp only [Option.some.injEq] at h
    constructor
    · rw [proposal_init_already env p hg]
    · intro hne
      exact absurd h.symm hne

/-- Witness for C10 (amended) at a concrete proposal failing through the
embedded-ballot signature recovery. -/
theorem C10_witness :
    (Proposal.Initialize env0 proposalBallotBadSig).1.proposalID =
      proposalBallotBadSig.proposalID ∧
    (ProposalInitError.ballotError BallotInitError.extractKeyFailed ≠
        ProposalInitError.alreadyInitialized →
      proposalBallotBadSig.proposalID = EmptyProposalID) :=
  C10_error_id_unchanged env0 proposalBallotBadSig
    (ProposalInitError.ballotError BallotInitError.extractKeyFailed) (by decide)

end Spacemesh
